import Mathlib

/-!
Shallow embedding of the adaptive stepper speed-control sketch
(`stepper_ir.ino`): data model, the regulation engine run in `loop()`,
the LED alert hysteresis machine, the IR command handling, and the LCD
status formatting.

Machine integers (`int`, `long`) are modelled as `Int`; every quantity the
sketch manipulates stays far inside 16-bit range, so no overflow wrapping
is modelled.  C integer division on `long` truncates toward zero, which is
`Int.tdiv`.  The two `float` constants and the `levelToRpm` interpolation
are modelled over `ℚ`: all intermediate values (9·k/8 + 6 for k ∈ [0,8])
are small dyadic rationals, exactly representable in IEEE single
precision, so the rational model computes exactly the float the sketch
computes.
-/

namespace StepperIR

/-- Tunable `RPM_L1 = 6.0f` (rate for level 1). -/
def RPM_L1 : ℚ := 6

/-- Tunable `RPM_L9 = 15.0f` (rate for level 9). -/
def RPM_L9 : ℚ := 15

/-- `BASE_SAFE_CM = 10`. -/
def BASE_SAFE_CM : Int := 10

/-- `CM_PER_LEVEL = 5`. -/
def CM_PER_LEVEL : Int := 5

/-- `MIN_CM = 2`. -/
def MIN_CM : Int := 2

/-- `HYSTERESIS_CM = 3`. -/
def HYSTERESIS_CM : Int := 3

/-- `LED_ON_CM = 20`: turn lamp ON when distance < 20 cm. -/
def LED_ON_CM : Int := 20

/-- `LED_OFF_CM = 25`: turn lamp OFF when distance > 25 cm. -/
def LED_OFF_CM : Int := 25

/-- The sentinel `readUltrasonicCm` returns on sensor timeout (`-1`). -/
def NO_ECHO : Int := -1

/-- Arduino `constrain(amt, low, high)`:
`(amt < low) ? low : ((amt > high) ? high : amt)`. -/
def constrain (amt low high : Int) : Int :=
  if amt < low then low else if high < amt then high else amt

/-- Arduino `map(x, in_min, in_max, out_min, out_max)`:
`(x - in_min) * (out_max - out_min) / (in_max - in_min) + out_min`
computed in C `long` arithmetic, whose division truncates toward zero
(`Int.tdiv`). -/
def map (x inMin inMax outMin outMax : Int) : Int :=
  Int.tdiv ((x - inMin) * (outMax - outMin)) (inMax - inMin) + outMin

/-- `levelToRpm(int lvl)`:
`if (lvl <= 0) return 0.0f; return RPM_L1 + (RPM_L9 - RPM_L1) * (float)(lvl - 1) / 8.0f;` -/
def levelToRpm (lvl : Int) : ℚ :=
  if lvl ≤ 0 then 0 else RPM_L1 + (RPM_L9 - RPM_L1) * ((lvl : ℚ) - 1) / 8

/-- `computeSafeCm(int lvl)`:
`if (lvl <= 0) return BASE_SAFE_CM; return BASE_SAFE_CM + CM_PER_LEVEL * lvl;` -/
def computeSafeCm (lvl : Int) : Int :=
  if lvl ≤ 0 then BASE_SAFE_CM else BASE_SAFE_CM + CM_PER_LEVEL * lvl

/-- `levelFromIrCommand(uint8_t cmd)`: the fixed IR code → digit lookup,
`-1` for unrecognized codes. -/
def levelFromIrCommand (cmd : Nat) : Int :=
  if cmd = 0x16 then 0
  else if cmd = 0x0C then 1
  else if cmd = 0x18 then 2
  else if cmd = 0x5E then 3
  else if cmd = 0x08 then 4
  else if cmd = 0x1C then 5
  else if cmd = 0x5A then 6
  else if cmd = 0x42 then 7
  else if cmd = 0x52 then 8
  else if cmd = 0x4A then 9
  else -1

/-- The sketch's mutable globals touched by the control loop, plus the
rate last passed to `stepper.setSpeed` (the Actuation Adapter output). -/
structure State where
  commandedLevel : Int
  effectiveLevel : Int
  reducing : Bool
  distanceCm : Int
  ledState : Bool
  rpm : ℚ
deriving Repr, DecidableEq

/-- `applyLevel(int lvl)`: `effectiveLevel = constrain(lvl, 0, 9);
stepper.setSpeed(levelToRpm(effectiveLevel));` -/
def applyLevel (s : State) (lvl : Int) : State :=
  let e := constrain lvl 0 9
  { s with effectiveLevel := e, rpm := levelToRpm e }

/-- The LED hysteresis block of `loop()` (lines 210–218), as a pure state
update on `ledState` given the fresh `distanceCm`:
`if (distanceCm >= 0) { if (!ledState && distanceCm < LED_ON_CM) ledState = true;
if (ledState && distanceCm > LED_OFF_CM) ledState = false; }`. -/
def ledStep (led : Bool) (d : Int) : Bool :=
  if 0 ≤ d then
    let led1 := if led = false ∧ d < LED_ON_CM then true else led
    if led1 = true ∧ LED_OFF_CM < d then false else led1
  else led

/-- One firing of the ultrasonic-and-regulation block of `loop()`
(lines 190–219), with the fresh sensor reading `d` (already clamped to
`MIN_CM` by `readUltrasonicCm`, or `-1` on timeout) passed in:
runs the three-way regulation decision, then the LED hysteresis update.
The sketch assigns `distanceCm = d` once before branching; since no branch
condition reads `distanceCm`, that assignment is folded into each branch
here (same resulting state). -/
def regulationTick (s : State) (d : Int) : State :=
  let safeCm := computeSafeCm s.commandedLevel
  let s2 : State :=
    if d < 0 then
      applyLevel { s with distanceCm := d, reducing := false } s.commandedLevel
    else if d < safeCm then
      let clamped := constrain d MIN_CM safeCm
      let reduced :=
        if s.commandedLevel = 0 then 0
        else map clamped MIN_CM safeCm 0 s.commandedLevel
      applyLevel { s with distanceCm := d,
                          reducing := decide (reduced < s.commandedLevel) } reduced
    else if safeCm + HYSTERESIS_CM < d then
      applyLevel { s with distanceCm := d, reducing := false } s.commandedLevel
    else { s with distanceCm := d }
  { s2 with ledState := ledStep s2.ledState d }

/-- The IR-handling block of `loop()` (lines 172–186): on a non-repeat
frame, look the command code up and store it as `commandedLevel` only if
the mapped level lies in [0,9]. -/
def handleIr (s : State) (cmd : Nat) (isRepeat : Bool) : State :=
  if isRepeat then s
  else
    let lvl := levelFromIrCommand cmd
    if 0 ≤ lvl ∧ lvl ≤ 9 then { s with commandedLevel := lvl } else s

/-- The state `setup()` leaves behind: `commandedLevel = 0; applyLevel(0);
reducing = false;` LED low, `distanceCm` still at its global initializer `-1`. -/
def initState : State :=
  applyLevel
    { commandedLevel := 0, effectiveLevel := 0, reducing := false,
      distanceCm := -1, ledState := false, rpm := 0 } 0

/-- An externally observable input to the control loop: a decoded
non-repeat IR frame, or a regulation tick with a fresh distance sample. -/
inductive Event where
  | ir (cmd : Nat)
  | tick (d : Int)
deriving Repr

/-- One loop pass processing one event. -/
def step (s : State) (e : Event) : State :=
  match e with
  | Event.ir c => handleIr s c false
  | Event.tick d => regulationTick s d

/-- Run the control loop from the post-`setup()` state over a list of events. -/
def run (es : List Event) : State :=
  es.foldl step initState

/-- `%3ld`: decimal rendering right-justified with spaces to width ≥ 3. -/
def fmtD3 (n : Int) : List Char :=
  let s := (toString n).data
  List.replicate (3 - s.length) ' ' ++ s

/-- First LCD line of `updateLcd()`:
`snprintf(line1, 17, "L:%d E:%d D:%3ldcm", commandedLevel, effectiveLevel,
(distanceCm < 0 ? 0 : distanceCm))` — at most 16 characters are written —
followed by the padding loop `for (i = strlen(line1); i < 16; i++) print(' ')`. -/
def updateLcdLine1 (L E d : Int) : List Char :=
  let shown : Int := if d < 0 then 0 else d
  let full := "L:".data ++ (toString L).data ++ " E:".data ++ (toString E).data
      ++ " D:".data ++ fmtD3 shown ++ "cm".data
  let written := full.take 16
  written ++ List.replicate (16 - written.length) ' '

/-- Second LCD line of `updateLcd()`: when `distanceCm >= 0 && distanceCm < 20`
the obstacle message padded from `strlen(msg)` up to column 16, otherwise the
normal-mode literal printed as-is. -/
def updateLcdLine2 (d : Int) : List Char :=
  if 0 ≤ d ∧ d < 20 then
    let msg := "Obstacle Detected".data
    msg ++ List.replicate (16 - msg.length) ' '
  else
    "MODE: NORMAL   ".data

theorem constrain_eq_self {x lo hi : Int} (h1 : lo ≤ x) (h2 : x ≤ hi) :
    constrain x lo hi = x := by
  unfold constrain; split_ifs <;> omega

theorem constrain_lower {x lo hi : Int} (h : lo ≤ hi) : lo ≤ constrain x lo hi := by
  unfold constrain; split_ifs <;> omega

theorem constrain_upper {x lo hi : Int} (h : lo ≤ hi) : constrain x lo hi ≤ hi := by
  unfold constrain; split_ifs <;> omega

theorem map_zero_bounds {x lo hi L : Int} (hx1 : lo ≤ x) (hx2 : x ≤ hi)
    (hlh : lo < hi) (hL : 0 ≤ L) :
    0 ≤ map x lo hi 0 L ∧ map x lo hi 0 L ≤ L := by
  unfold map
  have hnum : 0 ≤ (x - lo) * (L - 0) := mul_nonneg (by omega) (by omega)
  constructor
  · have := Int.tdiv_nonneg hnum (by omega : (0:Int) ≤ hi - lo)
    omega
  · rw [Int.tdiv_eq_ediv hnum (by omega)]
    have h2 : (x - lo) * (L - 0) ≤ (hi - lo) * L := by
      have := mul_le_mul_of_nonneg_right (show x - lo ≤ hi - lo by omega) hL
      simpa using this
    have h3 := Int.ediv_le_ediv (show (0:Int) < hi - lo by omega) h2
    rw [Int.mul_ediv_cancel_left L (show hi - lo ≠ 0 by omega)] at h3
    omega

theorem computeSafeCm_ge_base (lvl : Int) : 10 ≤ computeSafeCm lvl := by
  unfold computeSafeCm BASE_SAFE_CM CM_PER_LEVEL
  split_ifs <;> omega

theorem computeSafeCm_pos_eq {lvl : Int} (h : 0 < lvl) :
    computeSafeCm lvl = 10 + 5 * lvl := by
  unfold computeSafeCm BASE_SAFE_CM CM_PER_LEVEL
  rw [if_neg (by omega)]

/-- Claim C8: `computeSafeCm` is monotonically non-decreasing on levels in [0,9]. -/
theorem c8_computeSafeCm_monotone (a b : Int) (h0 : 0 ≤ a) (hab : a ≤ b)
    (h9 : b ≤ 9) : computeSafeCm a ≤ computeSafeCm b := by
  unfold computeSafeCm BASE_SAFE_CM CM_PER_LEVEL
  split_ifs <;> omega

theorem c8_witness : computeSafeCm 3 ≤ computeSafeCm 7 :=
  c8_computeSafeCm_monotone 3 7 (by decide) (by decide) (by decide)

/-- Claim C9: `levelToRpm` maps level 0 to rate 0, every level in [1,9] to
the linear interpolation between the level-1 and level-9 rates, and level 5
exactly to their midpoint. -/
theorem c9_levelToRpm_interpolation :
    levelToRpm 0 = 0 ∧
    (∀ lvl : Int, 1 ≤ lvl → lvl ≤ 9 →
      levelToRpm lvl = RPM_L1 + (RPM_L9 - RPM_L1) * ((lvl : ℚ) - 1) / 8) ∧
    levelToRpm 5 = (RPM_L1 + RPM_L9) / 2 := by
  refine ⟨by norm_num [levelToRpm], ?_, by norm_num [levelToRpm, RPM_L1, RPM_L9]⟩
  intro lvl h1 _
  unfold levelToRpm
  rw [if_neg (by omega)]

theorem c9_witness :
    levelToRpm 3 = RPM_L1 + (RPM_L9 - RPM_L1) * ((3 : ℚ) - 1) / 8 :=
  c9_levelToRpm_interpolation.2.1 3 (by decide) (by decide)

/-- Claim C10: handling an IR command frame changes at most `commandedLevel`:
`effectiveLevel`, `reducing`, the applied stepper rate, the LED state and the
stored distance are all left untouched. -/
theorem c10_handleIr_frame (s : State) (cmd : Nat) (r : Bool) :
    (handleIr s cmd r).effectiveLevel = s.effectiveLevel ∧
    (handleIr s cmd r).reducing = s.reducing ∧
    (handleIr s cmd r).rpm = s.rpm ∧
    (handleIr s cmd r).ledState = s.ledState ∧
    (handleIr s cmd r).distanceCm = s.distanceCm := by
  simp only [handleIr]
  split_ifs <;> simp

/-- Claim C5: a regulation tick with the `NO_ECHO` sentinel treats the path
as clear: `effectiveLevel` becomes the commanded level and `reducing` is
cleared, for every commanded level in [0,9]. -/
theorem c5_no_echo_runs_at_commanded (s : State)
    (h0 : 0 ≤ s.commandedLevel) (h9 : s.commandedLevel ≤ 9) :
    (regulationTick s NO_ECHO).effectiveLevel = s.commandedLevel ∧
    (regulationTick s NO_ECHO).reducing = false := by
  simp only [regulationTick, NO_ECHO]
  rw [if_pos (by norm_num : (-1 : Int) < 0)]
  simp [applyLevel, constrain_eq_self h0 h9]

theorem c5_witness :
    (regulationTick
      { commandedLevel := 7, effectiveLevel := 3, reducing := true,
        distanceCm := 12, ledState := true, rpm := 0 } NO_ECHO).effectiveLevel = 7 ∧
    (regulationTick
      { commandedLevel := 7, effectiveLevel := 3, reducing := true,
        distanceCm := 12, ledState := true, rpm := 0 } NO_ECHO).reducing = false :=
  c5_no_echo_runs_at_commanded _ (by decide) (by decide)

/-- Claim C6: the LED alert is a two-state hysteresis machine: it starts OFF,
any valid sample below `LED_ON_CM` drives it ON, from ON it stays ON on valid
samples in [`LED_ON_CM`, `LED_OFF_CM`], a valid sample above `LED_OFF_CM`
drives it OFF, and a `NO_ECHO` sample never changes it. -/
theorem c6_led_hysteresis :
    initState.ledState = false ∧
    (∀ (led : Bool) (d : Int), 0 ≤ d → d < LED_ON_CM → ledStep led d = true) ∧
    (∀ d : Int, LED_ON_CM ≤ d → d ≤ LED_OFF_CM → ledStep true d = true) ∧
    (∀ d : Int, LED_OFF_CM < d → ledStep true d = false) ∧
    (∀ led : Bool, ledStep led NO_ECHO = led) := by
  refine ⟨rfl, ?_, ?_, ?_, ?_⟩
  · intro led d h0 h1
    simp only [ledStep, LED_ON_CM, LED_OFF_CM] at *
    split_ifs <;> simp_all <;> omega
  · intro d h1 h2
    simp only [ledStep, LED_ON_CM, LED_OFF_CM] at *
    split_ifs <;> simp_all <;> omega
  · intro d h1
    simp only [ledStep, LED_ON_CM, LED_OFF_CM] at *
    split_ifs <;> simp_all <;> omega
  · intro led
    simp only [ledStep, NO_ECHO]
    rw [if_neg (by norm_num)]

theorem c6_witness :
    ledStep false 19 = true ∧ ledStep true 22 = true ∧
    ledStep true 26 = false ∧ ledStep true NO_ECHO = true :=
  ⟨c6_led_hysteresis.2.1 false 19 (by decide) (by decide),
   c6_led_hysteresis.2.2.1 22 (by decide) (by decide),
   c6_led_hysteresis.2.2.2.1 26 (by decide),
   c6_led_hysteresis.2.2.2.2 true⟩

/-- Claim C3: for a positive commanded level and a valid sample inside the
hysteresis band [safe, safe + `HYSTERESIS_CM`], a regulation tick leaves
`effectiveLevel` and `reducing` exactly as they were. -/
theorem c3_hysteresis_band_holds (s : State) (d : Int)
    (hL : 0 < s.commandedLevel)
    (h1 : computeSafeCm s.commandedLevel ≤ d)
    (h2 : d ≤ computeSafeCm s.commandedLevel + HYSTERESIS_CM) :
    (regulationTick s d).effectiveLevel = s.effectiveLevel ∧
    (regulationTick s d).reducing = s.reducing := by
  have hbase := computeSafeCm_ge_base s.commandedLevel
  have hH : HYSTERESIS_CM = 3 := rfl
  have hB : BASE_SAFE_CM = 10 := rfl
  simp only [regulationTick]
  rw [if_neg (by omega), if_neg (by omega), if_neg (by omega)]
  simp

theorem c3_witness :
    (regulationTick
      { commandedLevel := 5, effectiveLevel := 2, reducing := true,
        distanceCm := 0, ledState := false, rpm := 0 } 36).effectiveLevel = 2 ∧
    (regulationTick
      { commandedLevel := 5, effectiveLevel := 2, reducing := true,
        distanceCm := 0, ledState := false, rpm := 0 } 36).reducing = true :=
  c3_hysteresis_band_holds _ 36 (by decide) (by decide) (by decide)

/-- Claim C2 (amended): for a commanded level L in [1,9] and a valid sample
below the safe threshold, the tick sets `effectiveLevel` to the Arduino
`map` of the clamped distance from [`MIN_CM`, safe] onto [0, L] — an integer
linear interpolation whose division truncates — and sets `reducing` to
whether that mapped value is below L. -/
theorem c2_reduce_is_truncated_map (s : State) (d : Int)
    (h1 : 1 ≤ s.commandedLevel) (h9 : s.commandedLevel ≤ 9)
    (hd0 : 0 ≤ d) (hds : d < computeSafeCm s.commandedLevel) :
    (regulationTick s d).effectiveLevel =
      map (constrain d MIN_CM (computeSafeCm s.commandedLevel)) MIN_CM
        (computeSafeCm s.commandedLevel) 0 s.commandedLevel ∧
    (regulationTick s d).reducing =
      decide (map (constrain d MIN_CM (computeSafeCm s.commandedLevel)) MIN_CM
        (computeSafeCm s.commandedLevel) 0 s.commandedLevel < s.commandedLevel) := by
  have hM : MIN_CM = 2 := rfl
  have hsafe := computeSafeCm_pos_eq (show 0 < s.commandedLevel by omega)
  have h2s : MIN_CM ≤ computeSafeCm s.commandedLevel := by omega
  have hx1 := constrain_lower (x := d) h2s
  have hx2 := constrain_upper (x := d) h2s
  have hb := map_zero_bounds hx1 hx2 (show MIN_CM < computeSafeCm s.commandedLevel by omega)
    (show (0:Int) ≤ s.commandedLevel by omega)
  simp only [regulationTick]
  rw [if_neg (by omega), if_pos hds, if_neg (by omega : ¬ s.commandedLevel = 0)]
  simp [applyLevel, constrain_eq_self hb.1 (le_trans hb.2 h9)]

theorem c2_witness :
    (regulationTick
      { commandedLevel := 5, effectiveLevel := 5, reducing := false,
        distanceCm := -1, ledState := false, rpm := 0 } 20).effectiveLevel = 2 :=
  (c2_reduce_is_truncated_map _ 20 (by decide) (by decide) (by decide) (by decide)).1

/-- Claim C2 counterexample: with commanded level 5 and distance sample 20
(base safe 10, per-level 5, min clamp 2, so safe = 35) the code maps the
level to 90 / 33 truncated = 2, not round(90/33) = 3 as claimed. -/
theorem c2_counterexample :
    (run [Event.ir 0x1C, Event.tick 20]).commandedLevel = 5 ∧
    (run [Event.ir 0x1C, Event.tick 20]).effectiveLevel = 2 ∧
    (run [Event.ir 0x1C, Event.tick 20]).effectiveLevel ≠ 3 := by decide

/-- Claim C4 (amended): for a commanded level L in [1,9] and a valid sample
strictly above safe threshold + hysteresis margin, a regulation tick yields
`effectiveLevel` = L regardless of the prior state; at samples inside
[safe, safe + margin] the prior `effectiveLevel` is retained instead. -/
theorem c4_full_level_above_band (s : State) (d : Int)
    (h1 : 1 ≤ s.commandedLevel) (h9 : s.commandedLevel ≤ 9)
    (hd : computeSafeCm s.commandedLevel + HYSTERESIS_CM < d) :
    (regulationTick s d).effectiveLevel = s.commandedLevel := by
  have hH : HYSTERESIS_CM = 3 := rfl
  have hsafe := computeSafeCm_pos_eq (show 0 < s.commandedLevel by omega)
  simp only [regulationTick]
  rw [if_neg (by omega), if_neg (by omega), if_pos hd]
  simp [applyLevel, constrain_eq_self (show (0:Int) ≤ s.commandedLevel by omega) h9]

theorem c4_witness :
    (regulationTick
      { commandedLevel := 5, effectiveLevel := 2, reducing := true,
        distanceCm := 20, ledState := true, rpm := 0 } 39).effectiveLevel = 5 :=
  c4_full_level_above_band _ 39 (by decide) (by decide) (by decide)

/-- Claim C4 counterexample: commanded level 5, prior `effectiveLevel` 2
(from an earlier close sample), then a tick with d = 35 = SafeThreshold(5):
d ≥ threshold but the hysteresis branch keeps `effectiveLevel` at 2 ≠ 5. -/
theorem c4_counterexample :
    computeSafeCm 5 ≤ 35 ∧
    (run [Event.ir 0x1C, Event.tick 20, Event.tick 35]).commandedLevel = 5 ∧
    (run [Event.ir 0x1C, Event.tick 20, Event.tick 35]).effectiveLevel = 2 ∧
    (run [Event.ir 0x1C, Event.tick 20, Event.tick 35]).effectiveLevel ≠ 5 := by decide

/-- Claim C1 (amended): after any regulation tick whose sample lies outside
the hysteresis band (below the safe threshold, above threshold + margin, or
`NO_ECHO`), `effectiveLevel` ≤ `commandedLevel` when `reducing` is set and
`effectiveLevel` = `commandedLevel` when it is not; a tick inside the band
retains the prior `effectiveLevel`, which can violate both relations when
`commandedLevel` changed since it was computed. -/
theorem c1_invariant_outside_band (s : State) (d : Int)
    (h0 : 0 ≤ s.commandedLevel) (h9 : s.commandedLevel ≤ 9)
    (hband : d < computeSafeCm s.commandedLevel ∨
      computeSafeCm s.commandedLevel + HYSTERESIS_CM < d) :
    ((regulationTick s d).reducing = true →
      (regulationTick s d).effectiveLevel ≤ (regulationTick s d).commandedLevel) ∧
    ((regulationTick s d).reducing = false →
      (regulationTick s d).effectiveLevel = (regulationTick s d).commandedLevel) := by
  have hM : MIN_CM = 2 := rfl
  have hbase := computeSafeCm_ge_base s.commandedLevel
  by_cases hd0 : d < 0
  · simp only [regulationTick]
    rw [if_pos hd0]
    simp [applyLevel, constrain_eq_self h0 h9]
  · by_cases hds : d < computeSafeCm s.commandedLevel
    · by_cases hL0 : s.commandedLevel = 0
      · simp only [regulationTick]
        rw [if_neg hd0, if_pos hds, if_pos hL0]
        simp [applyLevel, constrain, hL0]
      · have hsafe := computeSafeCm_pos_eq (show 0 < s.commandedLevel by omega)
        have h2s : MIN_CM ≤ computeSafeCm s.commandedLevel := by omega
        have hb := map_zero_bounds (constrain_lower (x := d) h2s)
          (constrain_upper (x := d) h2s)
          (show MIN_CM < computeSafeCm s.commandedLevel by omega)
          (show (0:Int) ≤ s.commandedLevel by omega)
        simp only [regulationTick]
        rw [if_neg hd0, if_pos hds, if_neg hL0]
        simp only [applyLevel, constrain_eq_self hb.1 (le_trans hb.2 h9)]
        constructor <;> intro h <;> simp_all <;> omega
    · have hgt := hband.resolve_left hds
      simp only [regulationTick]
      rw [if_neg hd0, if_neg hds, if_pos hgt]
      simp [applyLevel, constrain_eq_self h0 h9]

theorem c1_witness :
    ((regulationTick
      { commandedLevel := 5, effectiveLevel := 5, reducing := false,
        distanceCm := -1, ledState := false, rpm := 0 } 20).reducing = true →
     (regulationTick
      { commandedLevel := 5, effectiveLevel := 5, reducing := false,
        distanceCm := -1, ledState := false, rpm := 0 } 20).effectiveLevel ≤
     (regulationTick
      { commandedLevel := 5, effectiveLevel := 5, reducing := false,
        distanceCm := -1, ledState := false, rpm := 0 } 20).commandedLevel) ∧
    ((regulationTick
      { commandedLevel := 5, effectiveLevel := 5, reducing := false,
        distanceCm := -1, ledState := false, rpm := 0 } 20).reducing = false →
     (regulationTick
      { commandedLevel := 5, effectiveLevel := 5, reducing := false,
        distanceCm := -1, ledState := false, rpm := 0 } 20).effectiveLevel =
     (regulationTick
      { commandedLevel := 5, effectiveLevel := 5, reducing := false,
        distanceCm := -1, ledState := false, rpm := 0 } 20).commandedLevel) :=
  c1_invariant_outside_band _ 20 (by decide) (by decide) (Or.inl (by decide))

/-- Claim C1 counterexample: command level 5, tick at d = 20 reduces
`effectiveLevel` to 2 with `reducing` set; a new command lowers
`commandedLevel` to 1; the next tick at d = 16 falls in level 1's hysteresis
band [15, 18] and retains `effectiveLevel` = 2 > `commandedLevel` = 1 while
`reducing` is still true — the claimed invariant fails in this reachable
state. -/
theorem c1_counterexample :
    (run [Event.ir 0x1C, Event.tick 20, Event.ir 0x0C, Event.tick 16]).reducing = true ∧
    (run [Event.ir 0x1C, Event.tick 20, Event.ir 0x0C, Event.tick 16]).commandedLevel = 1 ∧
    (run [Event.ir 0x1C, Event.tick 20, Event.ir 0x0C, Event.tick 16]).effectiveLevel = 2 ∧
    ¬ ((run [Event.ir 0x1C, Event.tick 20, Event.ir 0x0C, Event.tick 16]).effectiveLevel ≤
       (run [Event.ir 0x1C, Event.tick 20, Event.ir 0x0C, Event.tick 16]).commandedLevel) := by
  decide

/-- Claim C7 (amended): the first LCD line is always exactly 16 characters
(snprintf truncation to 16 plus space padding up to 16), but the second line
is 17 characters ("Obstacle Detected", longer than the 16-column pad target)
when the sample is valid and below 20 cm, and 15 characters
("MODE: NORMAL   ", printed without padding) otherwise — never 16. -/
theorem c7_lcd_line_widths :
    (∀ L E d : Int, (updateLcdLine1 L E d).length = 16) ∧
    (∀ d : Int, 0 ≤ d → d < 20 → (updateLcdLine2 d).length = 17) ∧
    (∀ d : Int, ¬ (0 ≤ d ∧ d < 20) → (updateLcdLine2 d).length = 15) := by
  refine ⟨?_, ?_, ?_⟩
  · intro L E d
    simp only [updateLcdLine1, List.length_append, List.length_replicate,
      List.length_take]
    omega
  · intro d h1 h2
    simp only [updateLcdLine2]
    rw [if_pos ⟨h1, h2⟩]
    rfl
  · intro d h
    simp only [updateLcdLine2]
    rw [if_neg h]
    rfl

theorem c7_witness :
    (updateLcdLine1 3 1 100).length = 16 ∧
    (updateLcdLine2 7).length = 17 ∧
    (updateLcdLine2 99).length = 15 :=
  ⟨c7_lcd_line_widths.1 3 1 100,
   c7_lcd_line_widths.2.1 7 (by decide) (by decide),
   c7_lcd_line_widths.2.2 99 (by decide)⟩

/-- Claim C7 counterexample: at distance 5 (valid, below the alert ON
threshold) the second LCD line is the 17-character obstacle message, and at
distance 30 it is the 15-character normal-mode message — neither is a
16-character line. -/
theorem c7_counterexample :
    (updateLcdLine2 5).length = 17 ∧ (updateLcdLine2 5).length ≠ 16 ∧
    (updateLcdLine2 30).length = 15 ∧ (updateLcdLine2 30).length ≠ 16 := by
  decide

end StepperIR
